import Mathlib

/-
Verification development for the opening-range-breakout engine
(OpeningRangeBreakoutUniverseAlgorithm.py / OpeningRangeBreakoutUniverseOptions.py).

The Python code is shallowly embedded over exact rationals: every float
expression of the source is translated literally to a Lean expression over
the rational numbers, Python `int()` truncation is `pyTrunc`, and the
per-symbol data extracted from the platform's history frames
(opening-range open/high/low/close, relative volume, ATR readiness) is a
`Candidate` record.  Stateful per-symbol lifecycle fields kept on the
security objects become the `Position` record, and each event handler
becomes an explicit state-transition function.
-/

namespace ORB

/-- Effective minimum price variation: the source replaces a missing or
non-positive tick with 0.01 (`tick = getattr(sp, "minimum_price_variation",
None) or 0.01` followed by the non-positivity fixup). -/
def tickEff (t : ℚ) : ℚ := if t ≤ 0 then 1 / 100 else t

/-- Python int() truncation toward zero on a rational value. -/
def pyTrunc (q : ℚ) : Int := if q < 0 then -Int.floor (-q) else Int.floor q

/-! ## Scan-cycle model (`_scan_for_entries`)

One record per symbol that survived the minute-history extraction.
`rvol` is `none` when the first-N-minutes volume SMA is not ready
(`e.relative_volume = None`); `prevClose` is `none` when the daily-history
lookup for the gap filter fails (the source swallows the lookup error and
lets the symbol pass). -/

structure Candidate where
  sym : Nat
  rvol : Option ℚ
  orOpen : ℚ
  orClose : ℚ
  orHigh : ℚ
  orLow : ℚ
  atrReady : Bool
  atr : ℚ
  price : ℚ
  prevClose : Option ℚ
deriving DecidableEq

/-- The scan parameters read in `initialize` that the entry scan uses. -/
structure ScanParams where
  rvolThreshold : ℚ
  maxPositions : Nat
  entryBufferAtr : ℚ
  stopLossAtrDistance : ℚ
  atrPriceFloor : ℚ
  longOnly : Bool
  gapMinPct : ℚ
  stopLossRiskSize : ℚ
  marginBuffer : ℚ
deriving DecidableEq

/-- gap_passes from the source: with the filter disabled or data missing the
symbol passes; otherwise require abs(today open - prior close)/prior close
* 100 to be at least the configured minimum gap percentage. -/
def gap_passes (gapMinPct : ℚ) (prevClose : Option ℚ) (todayOpen : ℚ) : Bool :=
  if gapMinPct ≤ 0 then true
  else
    match prevClose with
    | none => true
    | some pc =>
        if pc ≤ 0 then true
        else decide (gapMinPct ≤ |todayOpen - pc| / pc * 100)

/-- The per-symbol guards applied while building the order list (in source
order: ATR readiness, positive price with the ATR/price volatility floor,
then the best-effort gap filter). -/
def order_filters (p : ScanParams) (c : Candidate) : Bool :=
  c.atrReady && decide (0 < c.price) && decide (p.atrPriceFloor ≤ c.atr / c.price) &&
    gap_passes p.gapMinPct c.prevClose c.orOpen

/-- A prepared entry order: the dict appended to `orders`. -/
structure Order where
  cand : Candidate
  entry : ℚ
  stop : ℚ
  dir : Int
deriving DecidableEq

/-- Long order levels: entry = OR high + buffer*ATR, stop = entry - distance*ATR. -/
def mkLong (p : ScanParams) (c : Candidate) : Order :=
  { cand := c
    entry := c.orHigh + p.entryBufferAtr * c.atr
    stop := c.orHigh + p.entryBufferAtr * c.atr - p.stopLossAtrDistance * c.atr
    dir := 1 }

/-- Short order levels: entry = OR low - buffer*ATR, stop = entry + distance*ATR. -/
def mkShort (p : ScanParams) (c : Candidate) : Order :=
  { cand := c
    entry := c.orLow - p.entryBufferAtr * c.atr
    stop := c.orLow - p.entryBufferAtr * c.atr + p.stopLossAtrDistance * c.atr
    dir := -1 }

/-- The `orders` list of `_scan_for_entries`: longs are the symbols whose
opening-range close is strictly above its open, shorts (only when shorting
is enabled) those strictly below, each further subject to `order_filters`.
Note that the source iterates over the columns of the minute-history frame
here, i.e. over every candidate with data, not over the RVOL-selected list. -/
def buildOrders (p : ScanParams) (cs : List Candidate) : List Order :=
  (cs.filter (fun c => decide (c.orOpen < c.orClose) && order_filters p c)).map (mkLong p) ++
    (if p.longOnly then []
     else (cs.filter (fun c => decide (c.orClose < c.orOpen) && order_filters p c)).map (mkShort p))

/-- The RVOL filter: `e.relative_volume is not None and e.relative_volume >
self._rvol_threshold`. -/
def rvolPassers (p : ScanParams) (cs : List Candidate) : List Candidate :=
  cs.filter (fun c =>
    match c.rvol with
    | some r => decide (p.rvolThreshold < r)
    | none => false)

/-- Sort key for the RVOL ranking. -/
def rvolVal (c : Candidate) : ℚ := c.rvol.getD 0

/-- The `equities` list after `sorted(equities, key=rvol)[-max_positions:]`:
ascending sort by RVOL, keep the final maxPositions entries. -/
def retainedCandidates (p : ScanParams) (cs : List Candidate) : List Candidate :=
  let s := List.insertionSort (fun a b => rvolVal a ≤ rvolVal b) (rvolPassers p cs)
  s.drop (s.length - p.maxPositions)

/-- The full (post-warm-up) scan: the cycle returns early when no symbol
passes the RVOL filter; otherwise the order list is built as in the source,
from every candidate with data. -/
def scanOrders (p : ScanParams) (cs : List Candidate) : List Order :=
  if rvolPassers p cs = [] then [] else buildOrders p cs

/-! ## Risk sizing and the margin cap -/

/-- The clamped risk divisor: `max(abs(entry - stop), 1e-6)`. -/
def risk_qty_denom (entry stop : ℚ) : ℚ := max |entry - stop| (1 / 1000000)

/-- Per-position dollar risk bucket: riskFraction * portfolioValue / maxPositions. -/
def riskPerPos (riskSize pv : ℚ) (maxPos : Nat) : ℚ := riskSize * pv / (maxPos : ℚ)

/-- Per-order margin budget for the i-th (1-indexed) of T batched orders:
`(free_margin * margin_buffer) / max(1, total_orders - (i - 1))`. -/
def perOrderMargin (freeMargin buffer : ℚ) (T i : Nat) : ℚ :=
  freeMargin * buffer / ((max 1 (T - (i - 1)) : Nat) : ℚ)

/-- The platform readings consumed while sizing one order of the batch:
portfolio value, the allocation-cap quantity returned by
calculate_order_quantity (absolute value), the free-margin figure read at
this step of the loop, and the security's leverage. -/
structure SizeEnv where
  portfolioValue : ℚ
  allocQty : Nat
  freeMargin : ℚ
  leverage : ℚ
deriving DecidableEq

/-- Sizing of one prepared order, literally following the source: risk-based
quantity from the clamped divisor, truncated toward zero and signed; capped by
the allocation quantity; then capped by the per-order margin budget. -/
def sizeOrder (p : ScanParams) (env : SizeEnv) (T i : Nat) (o : Order) : Int :=
  let rpp := riskPerPos p.stopLossRiskSize env.portfolioValue p.maxPositions
  let riskQty : Int := pyTrunc (rpp / risk_qty_denom o.entry o.stop) * (if 0 < o.dir then 1 else -1)
  let qty1 : Int := ((min riskQty.natAbs env.allocQty : Nat) : Int) * (if 0 < riskQty then 1 else -1)
  let pom := perOrderMargin env.freeMargin p.marginBuffer T i
  let maxQtyByMargin : Int := pyTrunc (max 0 (pom * env.leverage / max o.entry (1 / 1000000)))
  ((min qty1.natAbs maxQtyByMargin.toNat : Nat) : Int) * (if 0 < qty1 then 1 else -1)

/-- The sequential sizing pass over the batch: the i-th order is sized with
the platform readings taken at that step (`envs` supplies, per step, the
freshly read free margin), never with a figure cached before the loop. -/
def sizeBatch (p : ScanParams) (T : Nat) : Nat → List (SizeEnv × Order) → List Int
  | _, [] => []
  | i, (env, o) :: rest => sizeOrder p env T i o :: sizeBatch p T (i + 1) rest

/-! ## Position lifecycle state

The per-symbol lifecycle fields the source keeps on the security object
(entry_price, initial_stop, current_stop, oneR, moved_to_breakeven,
entry_time, high_water, low_water, last_stop_update_time), together with the
portfolio quantity whose sign is the trade direction.  Times are minutes. -/

structure Position where
  qty : Int
  entryPrice : ℚ
  initialStop : ℚ
  oneR : ℚ
  currentStop : Option ℚ
  movedToBreakeven : Bool
  entryTime : Option Nat
  highWater : Option ℚ
  lowWater : Option ℚ
  lastStopUpdateTime : Option Nat
deriving DecidableEq

/-- The trailing/throttle parameters. -/
structure TrailParams where
  breakevenTriggerR : ℚ
  trailATRmult : ℚ
  trailMinTicks : ℚ
  trailUpdateThresholdAtr : ℚ
deriving DecidableEq

/-- _should_move_stop: with no current stop, any move is allowed; otherwise
the early-return chain of the source (already updated at this bar's
timestamp; ATR not ready; ATR non-positive; displacement below
max(min_ticks*tick, threshold*ATR)) is the conjunction below. -/
def should_move_stop (tp : TrailParams) (tick : ℚ) (atrReady : Bool) (atr : ℚ)
    (now : Nat) (p : Position) (newPrice : ℚ) : Bool :=
  match p.currentStop with
  | none => true
  | some cs =>
      decide (p.lastStopUpdateTime ≠ some now) && atrReady && decide (0 < atr) &&
        decide (max (tp.trailMinTicks * tickEff tick) (tp.trailUpdateThresholdAtr * atr)
          ≤ |newPrice - cs|)

/-- High/low-water maintenance at the top of the on_data loop body: the
high water only ratchets up for longs, the low water only down for shorts. -/
def update_waters (price : ℚ) (p : Position) : Position :=
  let hw0 := p.highWater.getD price
  let lw0 := p.lowWater.getD price
  { p with highWater := some (if 0 < p.qty then max hw0 price else hw0)
           lowWater := some (if p.qty < 0 then min lw0 price else lw0) }

/-- Trade direction read off the sign of the held quantity
(`1 if qty > 0 else -1`). -/
def dirSign (qty : Int) : ℚ := if 0 < qty then 1 else -1

/-- Breakeven migration: once the favorable move reaches
breakeven_trigger_R * oneR and the throttle admits the change, the stop is
moved to the entry price. -/
def breakeven_step (tp : TrailParams) (tick : ℚ) (atrReady : Bool) (atr price : ℚ)
    (now : Nat) (p : Position) : Position :=
  if p.movedToBreakeven = false ∧
      tp.breakevenTriggerR * p.oneR ≤ dirSign p.qty * (price - p.entryPrice) ∧
      should_move_stop tp tick atrReady atr now p p.entryPrice = true then
    { p with currentStop := some p.entryPrice, movedToBreakeven := true,
             lastStopUpdateTime := some now }
  else p

/-- Is the trail candidate strictly more favorable than the current stop of
a long (the source's `current_stop is None or candidate > current_stop`)? -/
def stopBelow (cand : ℚ) : Option ℚ → Bool
  | none => true
  | some s => decide (s < cand)

/-- Short-side counterpart of `stopBelow`. -/
def stopAbove (cand : ℚ) : Option ℚ → Bool
  | none => true
  | some s => decide (cand < s)

/-- The long-side trail candidate: max(entry, high_water - mult*ATR). -/
def trail_cand_long (tp : TrailParams) (atr price : ℚ) (p : Position) : ℚ :=
  max p.entryPrice (p.highWater.getD price - tp.trailATRmult * atr)

/-- The short-side trail candidate: min(entry, low_water + mult*ATR). -/
def trail_cand_short (tp : TrailParams) (atr price : ℚ) (p : Position) : ℚ :=
  min p.entryPrice (p.lowWater.getD price + tp.trailATRmult * atr)

/-- ATR trailing after breakeven: candidate stop
max(entry, high_water - mult*ATR) for longs (min/low-water mirror for
shorts), applied only when strictly more favorable and the throttle admits
the change. -/
def trail_step (tp : TrailParams) (tick : ℚ) (atrReady : Bool) (atr price : ℚ)
    (now : Nat) (p : Position) : Position :=
  if p.movedToBreakeven = true ∧ atrReady = true then
    if 0 < p.qty then
      if stopBelow (trail_cand_long tp atr price p) p.currentStop = true ∧
          should_move_stop tp tick atrReady atr now p (trail_cand_long tp atr price p) = true then
        { p with currentStop := some (trail_cand_long tp atr price p),
                 lastStopUpdateTime := some now }
      else p
    else
      if stopAbove (trail_cand_short tp atr price p) p.currentStop = true ∧
          should_move_stop tp tick atrReady atr now p (trail_cand_short tp atr price p) = true then
        { p with currentStop := some (trail_cand_short tp atr price p),
                 lastStopUpdateTime := some now }
      else p
  else p

/-- One on_data pass over an active equity position: the source skips
symbols that are not invested (qty 0) or whose oneR is falsy (0), updates
the water marks, then runs breakeven migration followed by trailing. -/
def on_data_step (tp : TrailParams) (tick : ℚ) (atrReady : Bool) (atr price : ℚ)
    (now : Nat) (p : Position) : Position :=
  if p.qty = 0 ∨ p.oneR = 0 then p
  else
    trail_step tp tick atrReady atr price now
      (breakeven_step tp tick atrReady atr price now (update_waters price p))

/-- One minute bar of inputs to the on_data handler. -/
structure BarIn where
  price : ℚ
  atr : ℚ
  atrReady : Bool
  now : Nat

/-- A sequence of on_data passes. -/
def run_on_data (tp : TrailParams) (tick : ℚ) : List BarIn → Position → Position
  | [], p => p
  | b :: bs, p => run_on_data tp tick bs (on_data_step tp tick b.atrReady b.atr b.price b.now p)

/-- The take-profit fill branch of on_order_event: the protective stop is
resized to the remaining quantity, its level moved to the entry price,
current_stop set to the entry price, breakeven locked, and the update time
recorded.  The source performs this without consulting _should_move_stop. -/
def tp_fill_step (now : Nat) (remaining : Int) (p : Position) : Position :=
  { p with qty := remaining, currentStop := some p.entryPrice,
           movedToBreakeven := true, lastStopUpdateTime := some now }

/-- The entry-fill branch of on_order_event: the fill price becomes the
entry price; the initial stop is the level recorded at scan time (recomputed
from the ATR only when missing); oneR is the absolute entry-to-stop
distance; the protective stop is armed at the initial stop. -/
def entry_fill_step (stopLossAtrDistance atr fillPrice : ℚ) (entryQty : Int)
    (scanInitialStop : Option ℚ) (now : Nat) : Position :=
  let d : ℚ := if 0 < entryQty then 1 else -1
  let istop := scanInitialStop.getD (fillPrice - d * stopLossAtrDistance * atr)
  { qty := entryQty, entryPrice := fillPrice, initialStop := istop,
    oneR := |fillPrice - istop|, currentStop := some istop,
    movedToBreakeven := false, entryTime := some now,
    highWater := some fillPrice, lowWater := some fillPrice,
    lastStopUpdateTime := none }

/-- The options-mode entry (confirmation succeeded, contracts bought): the
source records entry_price := the underlying spot at confirmation time,
initial_stop := the pending stop level, and oneR := the absolute distance
between the pending entry level and the pending stop level. -/
def options_entry_step (pendingEntry pendingStop spot : ℚ) (optionQty : Int)
    (now : Nat) : Position :=
  { qty := optionQty, entryPrice := spot, initialStop := pendingStop,
    oneR := |pendingEntry - pendingStop|, currentStop := some pendingStop,
    movedToBreakeven := false, entryTime := some now,
    highWater := some spot, lowWater := some spot,
    lastStopUpdateTime := none }

/-! ## Session calendar and the options confirmation window -/

/-- Session open, in minutes from an epoch midnight: each 1440-minute day
opens at minute 570 (09:30). -/
def sessionOpen (d : Nat) : Nat := d * 1440 + 570

/-- Modelled from the spec: the platform calendar primitive "next
market-open timestamp" consumed by the core (external interface section) --
the earliest session open strictly after the given time, with sessions as
in `sessionOpen`.  This stands in for
`exchange.hours.get_next_market_open(self.time, False)`. -/
def get_next_market_open (t : Nat) : Nat :=
  if t % 1440 < 570 then sessionOpen (t / 1440) else sessionOpen (t / 1440 + 1)

/-- The confirm-ready time armed by the options branch of
_scan_for_entries: the platform's next market open after the scan time,
plus the configured confirmation delay in minutes. -/
def confirm_ready_time (scanTime delayMin : Nat) : Nat :=
  get_next_market_open scanTime + delayMin

/-- The entry-confirmation gate of the options on_data branch: bars are
processed only once the current time has reached the armed confirm-ready
time (a missing ready time compares the time against itself and passes). -/
def confirm_gate : Option Nat → Nat → Bool
  | some r, now => decide (r ≤ now)
  | none, _ => true

/-! ## Time-stop (session boundary controller) -/

/-- Calendar date (day index) of a minute timestamp. -/
def dateOf (t : Nat) : Nat := t / 1440

/-- Does the equity time-stop liquidate this position?  Invested, opened on
the current session date, and not yet at breakeven. -/
def time_stop_selects (now : Nat) (p : Position) : Bool :=
  decide (p.qty ≠ 0) &&
    (match p.entryTime with
     | some t => decide (dateOf t = dateOf now)
     | none => false) &&
    (p.movedToBreakeven = false)

/-- The equity time-stop handler on one tracked position: liquidate
(holdings to zero) exactly the selected positions. -/
def time_stop_exit_eq (now : Nat) (p : Position) : Position :=
  if time_stop_selects now p then { p with qty := 0 } else p

/-- Options-mode per-symbol leg state: leg identifiers and the portfolio
holdings of each leg. -/
structure OptPosition where
  longLeg : Option Nat
  shortLeg : Option Nat
  longQty : Int
  shortQty : Int
  movedToBreakeven : Bool
  entryTime : Option Nat
deriving DecidableEq

/-- Mirrors the has_pos test: a leg is held and invested. -/
def opt_has_pos (p : OptPosition) : Bool :=
  (match p.longLeg with
   | some _ => decide (p.longQty ≠ 0)
   | none => false) ||
    (match p.shortLeg with
     | some _ => decide (p.shortQty ≠ 0)
     | none => false)

/-- _close_option_position: both legs are closed at market and the leg state
cleared. -/
def close_option_position (p : OptPosition) : OptPosition :=
  { p with longQty := 0, shortQty := 0, longLeg := none, shortLeg := none }

/-- Does the options time-stop flatten this symbol? -/
def opt_time_stop_selects (now : Nat) (p : OptPosition) : Bool :=
  opt_has_pos p &&
    (match p.entryTime with
     | some t => decide (dateOf t = dateOf now)
     | none => false) &&
    (p.movedToBreakeven = false)

/-- The options-mode time-stop handler on one tracked symbol. -/
def time_stop_exit_opt (now : Nat) (p : OptPosition) : OptPosition :=
  if opt_time_stop_selects now p then close_option_position p else p

/-! ## Option contract selection and debit-spread construction -/

/-- An option-chain entry: right (true = call), strike, expiry (day index),
two-sided quote, open interest when available, tick size, last trade. -/
structure Contract where
  isCall : Bool
  strike : ℚ
  expiry : Nat
  bid : ℚ
  ask : ℚ
  oi : Option Int
  tick : ℚ
  lastPrice : ℚ
deriving DecidableEq

/-- Contract liquidity/quality parameters. -/
structure OptParams where
  minOi : Int
  maxSpreadTicks : ℚ
  dteMax : Nat
deriving DecidableEq

/-- Open-interest rejection: only an available figure below the minimum rejects. -/
def oi_fails (minOi : Int) : Option Int → Bool
  | some v => decide (v < minOi)
  | none => false

/-- _liquidity_ok: positive two-sided quote, open interest at least the
minimum when available, and quoted spread at most the allowed tick count. -/
def liquidity_ok (op : OptParams) (c : Contract) : Bool :=
  !(decide (c.bid ≤ 0) || decide (c.ask ≤ 0)) && !(oi_fails op.minOi c.oi) &&
    decide ((c.ask - c.bid) / max (tickEff c.tick) (1 / 1000000) ≤ op.maxSpreadTicks)

/-- Strict lexicographic comparison on the (days-to-expiry, strike-distance) key. -/
def keyLt (a b : Int × ℚ) : Bool :=
  decide (a.1 < b.1) || (decide (a.1 = b.1) && decide (a.2 < b.2))

/-- _pick_atm_contract: scan the chain (right match, liquidity, expiry
within [0, dteMax] days) keeping the contract with the strictly smallest
(DTE, abs(strike - spot)) key; the fold starts from the sentinel key. -/
def pick_atm_contract (op : OptParams) (today : Nat) (spot : ℚ) (dirPos : Bool)
    (chain : List Contract) : Option Contract :=
  (chain.foldl
    (fun acc c =>
      if decide (c.isCall = dirPos) = false then acc
      else if liquidity_ok op c = false then acc
      else
        let dte : Int := (c.expiry : Int) - (today : Int)
        if dte < 0 ∨ (op.dteMax : Int) < dte then acc
        else if keyLt (dte, |c.strike - spot|) acc.2 then (some c, (dte, |c.strike - spot|))
        else acc)
    (none, ((9999 : Int), (9999 : ℚ)))).1

/-- Head-respecting minimum of a strike list (Python min over a nonempty list). -/
def listMin : List ℚ → Option ℚ
  | [] => none
  | x :: xs => some (xs.foldl min x)

/-- Head-respecting maximum of a strike list. -/
def listMax : List ℚ → Option ℚ
  | [] => none
  | x :: xs => some (xs.foldl max x)

/-- The out-of-the-money wing strike targeted by the debit-spread branch:
among liquid right-matching contracts, the smallest strike strictly above
the ATM strike for calls (largest strictly below for puts); none when no
such contract exists. -/
def find_otm_target (op : OptParams) (dirPos : Bool) (bestStrike : ℚ)
    (chain : List Contract) : Option ℚ :=
  let strikes :=
    (chain.filter (fun c =>
      decide (c.isCall = dirPos) && liquidity_ok op c &&
        (if dirPos then decide (bestStrike < c.strike) else decide (c.strike < bestStrike)))).map
      Contract.strike
  if dirPos then listMin strikes else listMax strikes

/-- The wing lookup: the first chain entry of the matching right at the
target strike that passes the liquidity filters. -/
def find_wing (op : OptParams) (dirPos : Bool) (target : ℚ)
    (chain : List Contract) : Option Contract :=
  chain.find? (fun c => decide (c.isCall = dirPos) && decide (c.strike = target) && liquidity_ok op c)

/-- The resulting option position of one confirmed entry. -/
inductive OptEntry where
  | naked (leg : Contract) (qty : Int)
  | spread (longLeg shortLeg : Contract) (qty : Int)
deriving DecidableEq

/-- The order-placement block after the ATM contract is chosen: naked ATM
when spreads are disabled; otherwise look for the OTM wing and fall back to
the naked ATM position when no wing exists or its expiry differs from the
ATM leg's. -/
def buildOptionEntry (op : OptParams) (useSpread : Bool) (chain : List Contract)
    (dirPos : Bool) (best : Contract) (qty : Int) : OptEntry :=
  if useSpread = false then .naked best qty
  else
    match find_otm_target op dirPos best.strike chain with
    | none => .naked best qty
    | some t =>
        match find_wing op dirPos t chain with
        | none => .naked best qty
        | some otm =>
            if otm.expiry ≠ best.expiry then .naked best qty
            else .spread best otm qty

/-! ## Concrete scenarios used by the witnesses and counterexamples -/

/-- Scan parameters: RVOL threshold 2, a single position slot, 0.10 ATR
entry buffer, 0.5 ATR stop distance, 0.01 volatility floor, long only, gap
filter off. -/
def pScanEx : ScanParams :=
  { rvolThreshold := 2, maxPositions := 1, entryBufferAtr := 1 / 10,
    stopLossAtrDistance := 1 / 2, atrPriceFloor := 1 / 100, longOnly := true,
    gapMinPct := 0, stopLossRiskSize := 1 / 100, marginBuffer := 9 / 10 }

/-- A candidate whose RVOL 3 passes the threshold. -/
def cA : Candidate :=
  { sym := 0, rvol := some 3, orOpen := 100, orClose := 101, orHigh := 102,
    orLow := 99, atrReady := true, atr := 2, price := 101, prevClose := none }

/-- A candidate whose RVOL 1 fails the threshold but whose opening range
closed up with all order filters passing. -/
def cB : Candidate := { cA with sym := 1, rvol := some 1 }

/-- The spec's worked example: opening range open 100, high 102, low 99.5,
close 101.5, ATR 2. -/
def cSpec : Candidate :=
  { sym := 0, rvol := some 3, orOpen := 100, orClose := 203 / 2, orHigh := 102,
    orLow := 199 / 2, atrReady := true, atr := 2, price := 203 / 2, prevClose := none }

/-- Trailing parameters: breakeven at +1R, 1.5 ATR trail, 2-tick and
0.25-ATR update throttle. -/
def tpEx : TrailParams :=
  { breakevenTriggerR := 1, trailATRmult := 3 / 2, trailMinTicks := 2,
    trailUpdateThresholdAtr := 1 / 4 }

/-- A long position past breakeven whose stop has not yet trailed: entry
100, current stop 100, high water 110, last stop update at minute 580. -/
def c5pos : Position :=
  { qty := 10, entryPrice := 100, initialStop := 99, oneR := 1,
    currentStop := some 100, movedToBreakeven := true, entryTime := some 575,
    highWater := some 110, lowWater := some 100, lastStopUpdateTime := some 580 }

/-- A long position past breakeven whose stop has already trailed to 105,
above the entry price 100. -/
def c2pos : Position :=
  { qty := 50, entryPrice := 100, initialStop := 99, oneR := 1,
    currentStop := some 105, movedToBreakeven := true, entryTime := some 575,
    highWater := some 110, lowWater := some 100, lastStopUpdateTime := some 580 }

/-- A fresh same-day position that never reached breakeven. -/
def c9pos : Position :=
  { qty := 5, entryPrice := 100, initialStop := 99, oneR := 1,
    currentStop := some 99, movedToBreakeven := false, entryTime := some 600,
    highWater := some 100, lowWater := some 100, lastStopUpdateTime := none }

/-- A same-day two-leg option position that never reached breakeven. -/
def c9opt : OptPosition :=
  { longLeg := some 10, shortLeg := some 11, longQty := 2, shortQty := -2,
    movedToBreakeven := false, entryTime := some 600 }

/-- Contract liquidity parameters: minimum open interest 200, at most 10
ticks of spread, expiries within 7 days. -/
def opEx : OptParams := { minOi := 200, maxSpreadTicks := 10, dteMax := 7 }

/-- A liquid at-the-money call expiring on day 3. -/
def atmEx : Contract :=
  { isCall := true, strike := 100, expiry := 3, bid := 2, ask := 21 / 10,
    oi := some 500, tick := 1 / 100, lastPrice := 2 }

/-- A liquid out-of-the-money call one strike higher but expiring on day 4,
not day 3. -/
def wingEx : Contract :=
  { isCall := true, strike := 105, expiry := 4, bid := 1, ask := 11 / 10,
    oi := some 500, tick := 1 / 100, lastPrice := 1 }

/-! ## Helper lemmas about the lifecycle steps -/

theorem update_waters_currentStop (price : ℚ) (p : Position) :
    (update_waters price p).currentStop = p.currentStop := rfl

theorem update_waters_lastStopUpdateTime (price : ℚ) (p : Position) :
    (update_waters price p).lastStopUpdateTime = p.lastStopUpdateTime := rfl

theorem update_waters_movedToBreakeven (price : ℚ) (p : Position) :
    (update_waters price p).movedToBreakeven = p.movedToBreakeven := rfl

theorem update_waters_qty (price : ℚ) (p : Position) :
    (update_waters price p).qty = p.qty := rfl

theorem update_waters_oneR (price : ℚ) (p : Position) :
    (update_waters price p).oneR = p.oneR := rfl

theorem should_move_stop_some_spec (tp : TrailParams) (tick : ℚ) (ready : Bool)
    (atr : ℚ) (now : Nat) (p : Position) (newPrice cs : ℚ)
    (hcs : p.currentStop = some cs)
    (h : should_move_stop tp tick ready atr now p newPrice = true) :
    p.lastStopUpdateTime ≠ some now ∧ ready = true ∧ 0 < atr ∧
      max (tp.trailMinTicks * tickEff tick) (tp.trailUpdateThresholdAtr * atr)
        ≤ |newPrice - cs| := by
  unfold should_move_stop at h
  rw [hcs] at h
  simp only [Bool.and_eq_true, decide_eq_true_eq] at h
  exact ⟨h.1.1.1, h.1.1.2, h.1.2, h.2⟩

theorem should_move_stop_same_bar (tp : TrailParams) (tick : ℚ) (ready : Bool)
    (atr : ℚ) (now : Nat) (p : Position) (newPrice cs : ℚ)
    (hcs : p.currentStop = some cs) (hl : p.lastStopUpdateTime = some now) :
    should_move_stop tp tick ready atr now p newPrice = false := by
  unfold should_move_stop
  rw [hcs]
  simp [hl]

theorem breakeven_step_of_moved (tp : TrailParams) (tick : ℚ) (ready : Bool)
    (atr price : ℚ) (now : Nat) (p : Position) (h : p.movedToBreakeven = true) :
    breakeven_step tp tick ready atr price now p = p := by
  unfold breakeven_step
  simp [h]

theorem breakeven_step_of_not_move (tp : TrailParams) (tick : ℚ) (ready : Bool)
    (atr price : ℚ) (now : Nat) (p : Position)
    (h : should_move_stop tp tick ready atr now p p.entryPrice = false) :
    breakeven_step tp tick ready atr price now p = p := by
  unfold breakeven_step
  simp [h]

theorem breakeven_step_eq_or (tp : TrailParams) (tick : ℚ) (ready : Bool)
    (atr price : ℚ) (now : Nat) (p : Position) :
    breakeven_step tp tick ready atr price now p = p ∨
      (p.movedToBreakeven = false ∧
        should_move_stop tp tick ready atr now p p.entryPrice = true ∧
        breakeven_step tp tick ready atr price now p =
          { p with currentStop := some p.entryPrice, movedToBreakeven := true,
                   lastStopUpdateTime := some now }) := by
  unfold breakeven_step
  split
  · next h => exact Or.inr ⟨h.1, h.2.2, rfl⟩
  · exact Or.inl rfl

theorem trail_step_of_not_move (tp : TrailParams) (tick : ℚ) (ready : Bool)
    (atr price : ℚ) (now : Nat) (p : Position)
    (h : ∀ c : ℚ, should_move_stop tp tick ready atr now p c = false) :
    trail_step tp tick ready atr price now p = p := by
  unfold trail_step
  split
  · split
    · split
      · next hc => exact absurd hc.2 (by simp [h])
      · rfl
    · split
      · next hc => exact absurd hc.2 (by simp [h])
      · rfl
  · rfl

theorem trail_step_eq_or (tp : TrailParams) (tick : ℚ) (ready : Bool)
    (atr price : ℚ) (now : Nat) (p : Position) :
    trail_step tp tick ready atr price now p = p ∨
      ∃ cand, should_move_stop tp tick ready atr now p cand = true ∧
        ((0 < p.qty ∧ stopBelow cand p.currentStop = true) ∨
          (¬0 < p.qty ∧ stopAbove cand p.currentStop = true)) ∧
        trail_step tp tick ready atr price now p =
          { p with currentStop := some cand, lastStopUpdateTime := some now } := by
  unfold trail_step
  split
  · split
    · next hq =>
        split
        · next hc => exact Or.inr ⟨_, hc.2, Or.inl ⟨hq, hc.1⟩, rfl⟩
        · exact Or.inl rfl
    · next hq =>
        split
        · next hc => exact Or.inr ⟨_, hc.2, Or.inr ⟨hq, hc.1⟩, rfl⟩
        · exact Or.inl rfl
  · exact Or.inl rfl

theorem on_data_step_mono (tp : TrailParams) (tick : ℚ) (ready : Bool)
    (atr price : ℚ) (now : Nat) (p : Position) (s : ℚ)
    (hbe : p.movedToBreakeven = true) (hs : p.currentStop = some s) :
    ∃ s', (on_data_step tp tick ready atr price now p).currentStop = some s' ∧
      (0 < p.qty → s ≤ s') ∧ (p.qty < 0 → s' ≤ s) ∧
      (on_data_step tp tick ready atr price now p).movedToBreakeven = true ∧
      (on_data_step tp tick ready atr price now p).qty = p.qty := by
  unfold on_data_step
  split
  · exact ⟨s, hs, fun _ => le_refl s, fun _ => le_refl s, hbe, rfl⟩
  · have hb : breakeven_step tp tick ready atr price now (update_waters price p) =
        update_waters price p :=
      breakeven_step_of_moved _ _ _ _ _ _ _ hbe
    rw [hb]
    rcases trail_step_eq_or tp tick ready atr price now (update_waters price p) with
      ht | ⟨cand, _, hdir, ht⟩
    · rw [ht]
      exact ⟨s, hs, fun _ => le_refl s, fun _ => le_refl s, hbe, rfl⟩
    · rw [ht]
      rcases hdir with ⟨hq, hsb⟩ | ⟨hq, hsa⟩
      · have hlt : s < cand := by
          have : stopBelow cand (some s) = true := by
            rw [← hs]; exact hsb
          simpa [stopBelow] using this
        refine ⟨cand, rfl, fun _ => le_of_lt hlt, fun hneg => ?_, hbe, rfl⟩
        exact absurd hq (by simp [update_waters_qty]; omega)
      · have hlt : cand < s := by
          have : stopAbove cand (some s) = true := by
            rw [← hs]; exact hsa
          simpa [stopAbove] using this
        refine ⟨cand, rfl, fun hpos => ?_, fun _ => le_of_lt hlt, hbe, rfl⟩
        exact absurd hpos (by revert hq; simp [update_waters_qty])

theorem on_data_step_frozen (tp : TrailParams) (tick : ℚ) (ready : Bool)
    (atr price : ℚ) (now : Nat) (p : Position) (cs : ℚ)
    (h1 : p.lastStopUpdateTime = some now) (hcs : p.currentStop = some cs) :
    (on_data_step tp tick ready atr price now p).currentStop = p.currentStop := by
  unfold on_data_step
  split
  · rfl
  · have hb : breakeven_step tp tick ready atr price now (update_waters price p) =
        update_waters price p :=
      breakeven_step_of_not_move _ _ _ _ _ _ _
        (should_move_stop_same_bar _ _ _ _ _ _ _ cs hcs h1)
    rw [hb]
    have ht : trail_step tp tick ready atr price now (update_waters price p) =
        update_waters price p :=
      trail_step_of_not_move _ _ _ _ _ _ _
        (fun c => should_move_stop_same_bar _ _ _ _ _ _ c cs hcs h1)
    rw [ht]
    rfl

theorem trail_after_breakeven_apply (tp : TrailParams) (tick : ℚ) (ready : Bool)
    (atr price : ℚ) (now : Nat) (p : Position) :
    trail_step tp tick ready atr price now
      { p with currentStop := some p.entryPrice, movedToBreakeven := true,
               lastStopUpdateTime := some now } =
      { p with currentStop := some p.entryPrice, movedToBreakeven := true,
               lastStopUpdateTime := some now } :=
  trail_step_of_not_move _ _ _ _ _ _ _
    (fun c => should_move_stop_same_bar _ _ _ _ _ _ c p.entryPrice rfl rfl)

theorem on_data_step_stop_change (tp : TrailParams) (tick : ℚ) (ready : Bool)
    (atr price : ℚ) (now : Nat) (p : Position) (s : ℚ)
    (hs : p.currentStop = some s) :
    ((on_data_step tp tick ready atr price now p).currentStop = some s ∧
      (on_data_step tp tick ready atr price now p).lastStopUpdateTime =
        p.lastStopUpdateTime) ∨
    ((on_data_step tp tick ready atr price now p).lastStopUpdateTime = some now ∧
      p.lastStopUpdateTime ≠ some now ∧
      ∃ s', (on_data_step tp tick ready atr price now p).currentStop = some s' ∧
        max (tp.trailMinTicks * tickEff tick) (tp.trailUpdateThresholdAtr * atr)
          ≤ |s' - s|) := by
  unfold on_data_step
  split
  · exact Or.inl ⟨hs, rfl⟩
  · rcases breakeven_step_eq_or tp tick ready atr price now (update_waters price p) with
      hb | ⟨_, hbmv, hb⟩
    · rw [hb]
      rcases trail_step_eq_or tp tick ready atr price now (update_waters price p) with
        ht | ⟨cand, hmv, _, ht⟩
      · rw [ht]; exact Or.inl ⟨hs, rfl⟩
      · rw [ht]
        have spec := should_move_stop_some_spec tp tick ready atr now
          (update_waters price p) cand s hs hmv
        exact Or.inr ⟨rfl, spec.1, cand, rfl, spec.2.2.2⟩
    · have spec := should_move_stop_some_spec tp tick ready atr now
        (update_waters price p) (update_waters price p).entryPrice s hs hbmv
      rw [hb, trail_after_breakeven_apply]
      exact Or.inr ⟨rfl, spec.1, (update_waters price p).entryPrice, rfl, spec.2.2.2⟩

theorem breakeven_step_oneR (tp : TrailParams) (tick : ℚ) (ready : Bool)
    (atr price : ℚ) (now : Nat) (p : Position) :
    (breakeven_step tp tick ready atr price now p).oneR = p.oneR := by
  unfold breakeven_step
  split <;> rfl

theorem trail_step_oneR (tp : TrailParams) (tick : ℚ) (ready : Bool)
    (atr price : ℚ) (now : Nat) (p : Position) :
    (trail_step tp tick ready atr price now p).oneR = p.oneR := by
  unfold trail_step
  split
  · split
    · split <;> rfl
    · split <;> rfl
  · rfl

theorem on_data_step_oneR (tp : TrailParams) (tick : ℚ) (ready : Bool)
    (atr price : ℚ) (now : Nat) (p : Position) :
    (on_data_step tp tick ready atr price now p).oneR = p.oneR := by
  unfold on_data_step
  split
  · rfl
  · rw [trail_step_oneR, breakeven_step_oneR, update_waters_oneR]

theorem run_on_data_oneR (tp : TrailParams) (tick : ℚ) (bars : List BarIn)
    (p : Position) : (run_on_data tp tick bars p).oneR = p.oneR := by
  induction bars generalizing p with
  | nil => rfl
  | cons b bs ih =>
      rw [run_on_data, ih, on_data_step_oneR]

theorem int_cap_abs (n m : Nat) (z : Int) (hz : z.natAbs = 1) :
    (((min n m : Nat) : Int) * z).natAbs ≤ m := by
  rw [Int.natAbs_mul, hz, mul_one, Int.natAbs_ofNat]
  exact min_le_right n m

theorem sign_natAbs (z : Int) : (if 0 < z then (1 : Int) else -1).natAbs = 1 := by
  split <;> rfl

/-! ## Claim theorems -/

/-- Claim C1 (code bug): the scan computes the RVOL-filtered, ascending
RVOL-sorted top-maxPositions list, but then builds the entry-order batch
from every candidate whose opening range closed up, ignoring that list.
With maxPositions = 1 and only cA passing the RVOL threshold 2, the code
still prepares orders for both cA and cB (RVOL 1). -/
theorem c1_orders_ignore_rvol_ranking :
    pScanEx.maxPositions = 1 ∧ pScanEx.rvolThreshold = 2 ∧ cB.rvol = some 1 ∧
    retainedCandidates pScanEx [cA, cB] = [cA] ∧
    (scanOrders pScanEx [cA, cB]).map Order.cand = [cA, cB] ∧
    (scanOrders pScanEx [cA, cB]).length = 2 := by
  refine ⟨rfl, rfl, rfl, ?_, ?_, ?_⟩
  · norm_num [retainedCandidates, rvolPassers, rvolVal, pScanEx, cA, cB,
      List.insertionSort, List.orderedInsert]
  · norm_num [scanOrders, buildOrders, rvolPassers, order_filters, gap_passes,
      mkLong, pScanEx, cA, cB]
  · norm_num [scanOrders, buildOrders, rvolPassers, order_filters, gap_passes,
      mkLong, pScanEx, cA, cB]

/-- Claim C2 (amended): once movedToBreakeven is true and a current stop is
set, the stop remains set and is monotonically non-decreasing for longs
(non-increasing for shorts) across any sequence of on_data updates.  (The
take-profit fill handler is exempt: it resets the stop to the entry price,
see the counterexample.) -/
theorem c2_stop_monotone_after_breakeven (tp : TrailParams) (tick : ℚ)
    (bars : List BarIn) (p : Position) (s : ℚ)
    (hbe : p.movedToBreakeven = true) (hs : p.currentStop = some s) :
    ∃ s', (run_on_data tp tick bars p).currentStop = some s' ∧
      (0 < p.qty → s ≤ s') ∧ (p.qty < 0 → s' ≤ s) := by
  induction bars generalizing p s with
  | nil => exact ⟨s, hs, fun _ => le_refl s, fun _ => le_refl s⟩
  | cons b bs ih =>
      obtain ⟨s1, h1, hle1, hge1, hbe1, hq1⟩ :=
        on_data_step_mono tp tick b.atrReady b.atr b.price b.now p s hbe hs
      obtain ⟨s', h', hle', hge'⟩ := ih _ s1 hbe1 h1
      rw [run_on_data]
      refine ⟨s', h', fun hp => le_trans (hle1 hp) (hle' ?_), fun hn => le_trans (hge' ?_) (hge1 hn)⟩
      · rw [hq1]; exact hp
      · rw [hq1]; exact hn

/-- Claim C2 witness: the monotonicity theorem applied to the concrete
trailed position c2pos over one further bar. -/
theorem c2_stop_monotone_witness :
    ∃ s', (run_on_data tpEx (1 / 100) [⟨106, 2, true, 581⟩] c2pos).currentStop = some s' ∧
      (0 < c2pos.qty → (105 : ℚ) ≤ s') ∧ (c2pos.qty < 0 → s' ≤ 105) :=
  c2_stop_monotone_after_breakeven tpEx (1 / 100) [⟨106, 2, true, 581⟩] c2pos 105 rfl rfl

/-- Claim C2 counterexample: for the long position c2pos, past breakeven
with its stop already trailed to 105 above the entry price 100, the
take-profit fill handler moves the current stop back down to 100 — an
unfavorable move after movedToBreakeven became true. -/
theorem c2_tp_fill_lowers_trailed_stop :
    c2pos.movedToBreakeven = true ∧ 0 < c2pos.qty ∧ c2pos.currentStop = some 105 ∧
    c2pos.entryPrice = 100 ∧
    (tp_fill_step 600 25 c2pos).currentStop = some 100 ∧
    (tp_fill_step 600 25 c2pos).movedToBreakeven = true ∧
    ((100 : ℚ) < 105) := by
  refine ⟨rfl, by norm_num [c2pos], rfl, rfl, rfl, rfl, by norm_num⟩

/-- Claim C3 (amended): oneR is written exactly once, at entry, and no
on_data pass or take-profit fill ever changes it.  In equity mode it equals
the absolute distance between the recorded (fill) entry price and the
initial stop; in options mode it equals the absolute distance between the
pending entry level and the pending stop level, while entryPrice records
the underlying spot at confirmation. -/
theorem c3_oneR_fixed_at_entry :
    (∀ (sd atr fp : ℚ) (q : Int) (ss : Option ℚ) (now : Nat),
        (entry_fill_step sd atr fp q ss now).oneR =
          |(entry_fill_step sd atr fp q ss now).entryPrice -
            (entry_fill_step sd atr fp q ss now).initialStop|) ∧
    (∀ (pe ps spot : ℚ) (q : Int) (now : Nat),
        (options_entry_step pe ps spot q now).oneR = |pe - ps| ∧
        (options_entry_step pe ps spot q now).initialStop = ps ∧
        (options_entry_step pe ps spot q now).entryPrice = spot) ∧
    (∀ (tp : TrailParams) (tick : ℚ) (bars : List BarIn) (p : Position),
        (run_on_data tp tick bars p).oneR = p.oneR) ∧
    (∀ (now : Nat) (r : Int) (p : Position), (tp_fill_step now r p).oneR = p.oneR) :=
  ⟨fun _ _ _ _ _ _ => rfl, fun _ _ _ _ _ => ⟨rfl, rfl, rfl⟩,
    run_on_data_oneR, fun _ _ _ => rfl⟩

/-- Claim C3 counterexample: an options entry armed with pending entry
102.20 and pending stop 101.20 that confirms with the underlying at 103 has
oneR = 1, while the recorded entry price minus initial stop gives 1.80 —
oneR does not equal the entry-to-stop distance in options mode. -/
theorem c3_options_oneR_counterexample :
    (options_entry_step (511 / 5) (506 / 5) 103 1 600).oneR = 1 ∧
    |(options_entry_step (511 / 5) (506 / 5) 103 1 600).entryPrice -
      (options_entry_step (511 / 5) (506 / 5) 103 1 600).initialStop| = 9 / 5 ∧
    (1 : ℚ) ≠ 9 / 5 := by
  refine ⟨by norm_num [options_entry_step], by norm_num [options_entry_step], by norm_num⟩

/-- Claim C4 (code bug): the options branch of the scan, running five
minutes after the session open (minute 575 of day 0, with the session open
at minute 570), arms confirmReadyTime = next-market-open + 7 = minute 2017,
which lies on day 1 — not the current session's open plus the delay
(minute 577) — and the confirmation gate admits no bar before that stored
time, so no option entry can happen on the signal day. -/
theorem c4_confirm_ready_time_next_session :
    sessionOpen 0 = 570 ∧ sessionOpen 0 ≤ 575 ∧ 575 < sessionOpen 1 ∧
    confirm_ready_time 575 7 = sessionOpen 1 + 7 ∧
    confirm_ready_time 575 7 = 2017 ∧ sessionOpen 0 + 7 = 577 ∧
    confirm_ready_time 575 7 ≠ sessionOpen 0 + 7 ∧
    dateOf (confirm_ready_time 575 7) = 1 ∧ dateOf 575 = 0 ∧
    (∀ t2 : Nat, confirm_gate (some (confirm_ready_time 575 7)) t2 = true → 2017 ≤ t2) := by
  refine ⟨rfl, by decide, by decide, by decide, by decide, rfl, by decide, by decide, rfl, ?_⟩
  intro t2 h
  simpa [confirm_gate, confirm_ready_time, get_next_market_open, sessionOpen] using h

/-- Claim C5 (amended): a stop change proposed by the on_data handler
(breakeven or trailing) is applied only when its displacement from the
current stop is at least max(min_ticks * tick, threshold * ATR) and no stop
update has already happened at this bar timestamp; after an applied change,
a second on_data pass at the same timestamp leaves the stop unchanged.
(The take-profit fill handler bypasses this throttle, see the
counterexample.) -/
theorem c5_on_data_stop_updates_throttled (tp : TrailParams) (tick : ℚ)
    (ready : Bool) (atr price : ℚ) (now : Nat) (p : Position) (s : ℚ)
    (hs : p.currentStop = some s) :
    (on_data_step tp tick ready atr price now p).currentStop = some s ∨
      ((on_data_step tp tick ready atr price now p).lastStopUpdateTime = some now ∧
        p.lastStopUpdateTime ≠ some now ∧
        (∀ s', (on_data_step tp tick ready atr price now p).currentStop = some s' →
          max (tp.trailMinTicks * tickEff tick) (tp.trailUpdateThresholdAtr * atr)
            ≤ |s' - s|) ∧
        (∀ (ready2 : Bool) (atr2 price2 : ℚ),
          (on_data_step tp tick ready2 atr2 price2 now
              (on_data_step tp tick ready atr price now p)).currentStop =
            (on_data_step tp tick ready atr price now p).currentStop)) := by
  rcases on_data_step_stop_change tp tick ready atr price now p s hs with
    ⟨h1, _⟩ | ⟨hlast, hplast, s', hstop, hbound⟩
  · exact Or.inl h1
  · refine Or.inr ⟨hlast, hplast, ?_, ?_⟩
    · intro s'' h''
      rw [hstop] at h''
      obtain rfl : s' = s'' := Option.some.inj h''
      exact hbound
    · intro ready2 atr2 price2
      exact on_data_step_frozen tp tick ready2 atr2 price2 now _ s' hlast hstop

/-- Claim C5 witness: the throttle theorem applied to the concrete position
c5pos, whose trailing update fires at minute 581. -/
theorem c5_throttle_witness :
    (on_data_step tpEx (1 / 100) true 2 110 581 c5pos).currentStop = some 100 ∨
      ((on_data_step tpEx (1 / 100) true 2 110 581 c5pos).lastStopUpdateTime = some 581 ∧
        c5pos.lastStopUpdateTime ≠ some 581 ∧
        (∀ s', (on_data_step tpEx (1 / 100) true 2 110 581 c5pos).currentStop = some s' →
          max (tpEx.trailMinTicks * tickEff (1 / 100)) (tpEx.trailUpdateThresholdAtr * 2)
            ≤ |s' - 100|) ∧
        (∀ (ready2 : Bool) (atr2 price2 : ℚ),
          (on_data_step tpEx (1 / 100) ready2 atr2 price2 581
              (on_data_step tpEx (1 / 100) true 2 110 581 c5pos)).currentStop =
            (on_data_step tpEx (1 / 100) true 2 110 581 c5pos).currentStop)) :=
  c5_on_data_stop_updates_throttled tpEx (1 / 100) true 2 110 581 c5pos 100 rfl

/-- Claim C5 counterexample: at bar timestamp 581 the trailing logic moves
the stop of c5pos from 100 to 107, recording the update time; a take-profit
fill processed at the same timestamp 581 then moves the stop again, to the
entry price 100 — two applied stop modifications at one bar timestamp, the
second unthrottled. -/
theorem c5_second_update_same_bar_applies :
    (on_data_step tpEx (1 / 100) true 2 110 581 c5pos).currentStop = some 107 ∧
    (on_data_step tpEx (1 / 100) true 2 110 581 c5pos).lastStopUpdateTime = some 581 ∧
    c5pos.currentStop = some 100 ∧ c5pos.lastStopUpdateTime = some 580 ∧
    (tp_fill_step 581 5 (on_data_step tpEx (1 / 100) true 2 110 581 c5pos)).currentStop
      = some 100 ∧
    (tp_fill_step 581 5 (on_data_step tpEx (1 / 100) true 2 110 581 c5pos)).lastStopUpdateTime
      = some 581 ∧
    ((100 : ℚ) ≠ 107) := by
  norm_num [on_data_step, tp_fill_step, c5pos, tpEx, update_waters, breakeven_step,
    trail_step, trail_cand_long, trail_cand_short, stopBelow, stopAbove,
    should_move_stop, tickEff, dirSign]

/-- Claim C6: the i-th (1-indexed) of T batched orders gets the per-order
margin budget freeMargin * buffer / (T - i + 1), computed from the
free-margin figure read at that step; the final quantity is capped in
magnitude by that budget times leverage over the entry price (floored); and
at 100,000 free margin, 0.90 buffer, 4 candidates the first budget is
22,500. -/
theorem c6_margin_apportionment (f b : ℚ) (T i : Nat) (h1 : 1 ≤ i) (h2 : i ≤ T) :
    perOrderMargin f b T i = f * b / ((T : ℚ) - (i : ℚ) + 1) ∧
    (∀ (p : ScanParams) (env : SizeEnv) (o : Order),
        (sizeOrder p env T i o).natAbs ≤
          (pyTrunc (max 0 (perOrderMargin env.freeMargin p.marginBuffer T i * env.leverage /
            max o.entry (1 / 1000000)))).toNat) ∧
    perOrderMargin 100000 (9 / 10) 4 1 = 22500 := by
  refine ⟨?_, ?_, ?_⟩
  · unfold perOrderMargin
    have hmax : max 1 (T - (i - 1)) = T - i + 1 := by omega
    rw [hmax]
    have hc : ((T - i + 1 : ℕ) : ℚ) = (T : ℚ) - (i : ℚ) + 1 := by
      push_cast [h2]
      ring
    rw [hc]
  · intro p env o
    exact int_cap_abs _ _ _ (sign_natAbs _)
  · norm_num [perOrderMargin]

/-- Claim C6 witness: the apportionment theorem instantiated at the spec's
worked figures. -/
theorem c6_margin_witness : perOrderMargin 100000 (9 / 10) 4 1 = 22500 :=
  (c6_margin_apportionment 100000 (9 / 10) 4 1 (by norm_num) (by norm_num)).2.2

/-- Claim C7: a candidate surviving the order filters with its opening
range closed up yields a long order at entry = OR-high + buffer * ATR and
stop = entry - distance * ATR; mirrored for shorts when shorting is
enabled. -/
theorem c7_entry_stop_levels (p : ScanParams) (cs : List Candidate) (c : Candidate)
    (hmem : c ∈ cs) (_hatr : 0 < c.atr) (hprice : 0 < c.price)
    (hready : c.atrReady = true) (hfloor : p.atrPriceFloor ≤ c.atr / c.price)
    (hgap : gap_passes p.gapMinPct c.prevClose c.orOpen = true) :
    (c.orOpen < c.orClose →
      mkLong p c ∈ buildOrders p cs ∧
      (mkLong p c).entry = c.orHigh + p.entryBufferAtr * c.atr ∧
      (mkLong p c).stop = c.orHigh + p.entryBufferAtr * c.atr - p.stopLossAtrDistance * c.atr) ∧
    (c.orClose < c.orOpen → p.longOnly = false →
      mkShort p c ∈ buildOrders p cs ∧
      (mkShort p c).entry = c.orLow - p.entryBufferAtr * c.atr ∧
      (mkShort p c).stop = c.orLow - p.entryBufferAtr * c.atr + p.stopLossAtrDistance * c.atr) := by
  have hof : order_filters p c = true := by
    unfold order_filters
    simp [hready, hgap, hprice, hfloor]
  constructor
  · intro hlt
    refine ⟨?_, rfl, rfl⟩
    unfold buildOrders
    apply List.mem_append_left
    exact List.mem_map_of_mem _ (List.mem_filter.2 ⟨hmem, by simp [hof, hlt]⟩)
  · intro hlt hlo
    refine ⟨?_, rfl, rfl⟩
    unfold buildOrders
    apply List.mem_append_right
    rw [if_neg (by simp [hlo])]
    exact List.mem_map_of_mem _ (List.mem_filter.2 ⟨hmem, by simp [hof, hlt]⟩)

/-- Claim C7 witness: the spec's worked example — OR high 102, ATR 2,
buffer 0.10, distance 0.5 give entry 102.20 and stop 101.20. -/
theorem c7_entry_stop_levels_witness :
    mkLong pScanEx cSpec ∈ buildOrders pScanEx [cSpec] ∧
    (mkLong pScanEx cSpec).entry = 511 / 5 ∧ (mkLong pScanEx cSpec).stop = 506 / 5 := by
  have h := (c7_entry_stop_levels pScanEx [cSpec] cSpec (by simp)
    (by norm_num [cSpec]) (by norm_num [cSpec]) rfl
    (by norm_num [cSpec, pScanEx]) (by norm_num [gap_passes, cSpec, pScanEx])).1
    (by norm_num [cSpec])
  exact ⟨h.1, by norm_num [mkLong, cSpec, pScanEx], by norm_num [mkLong, cSpec, pScanEx]⟩

/-- Claim C8: debit-spread construction never produces a two-leg position
with mismatched expiries — every outcome is either the naked at-the-money
leg, or a spread whose short leg shares the long leg's expiry; in
particular a missing wing target, or a wing whose expiry differs from the
ATM leg's, deterministically falls back to the naked ATM position. -/
theorem c8_spread_expiry_match_or_naked (op : OptParams) (chain : List Contract)
    (dirPos : Bool) (best : Contract) (qty : Int) :
    (buildOptionEntry op true chain dirPos best qty = OptEntry.naked best qty ∨
      ∃ otm, buildOptionEntry op true chain dirPos best qty = OptEntry.spread best otm qty ∧
        otm.expiry = best.expiry) ∧
    (find_otm_target op dirPos best.strike chain = none →
      buildOptionEntry op true chain dirPos best qty = OptEntry.naked best qty) ∧
    (∀ (t : ℚ) (otm : Contract), find_otm_target op dirPos best.strike chain = some t →
      find_wing op dirPos t chain = some otm → otm.expiry ≠ best.expiry →
      buildOptionEntry op true chain dirPos best qty = OptEntry.naked best qty) := by
  rcases htgt : find_otm_target op dirPos best.strike chain with _ | t
  · have hval : buildOptionEntry op true chain dirPos best qty = OptEntry.naked best qty := by
      unfold buildOptionEntry
      rw [if_neg (by simp)]
      simp only [htgt]
    refine ⟨Or.inl hval, fun _ => hval, ?_⟩
    intro t' otm' ht' _ _
    exact absurd ht' (by simp)
  · rcases hwing : find_wing op dirPos t chain with _ | otm
    · have hval : buildOptionEntry op true chain dirPos best qty = OptEntry.naked best qty := by
        unfold buildOptionEntry
        rw [if_neg (by simp)]
        simp only [htgt, hwing]
      refine ⟨Or.inl hval, fun _ => hval, ?_⟩
      intro t' otm' ht' hw' _
      obtain rfl : t = t' := Option.some.inj ht'
      rw [hwing] at hw'
      exact absurd hw' (by simp)
    · have hval : buildOptionEntry op true chain dirPos best qty =
          if otm.expiry ≠ best.expiry then OptEntry.naked best qty
          else OptEntry.spread best otm qty := by
        unfold buildOptionEntry
        rw [if_neg (by simp)]
        simp only [htgt, hwing]
      refine ⟨?_, fun h => absurd h (by simp), ?_⟩
      · by_cases hexp : otm.expiry ≠ best.expiry
        · rw [hval, if_pos hexp]
          exact Or.inl rfl
        · rw [hval, if_neg hexp]
          exact Or.inr ⟨otm, rfl, of_not_not hexp⟩
      · intro t' otm' ht' hw' hne
        obtain rfl : t = t' := Option.some.inj ht'
        rw [hwing] at hw'
        obtain rfl : otm = otm' := Option.some.inj hw'
        rw [hval, if_pos hne]

/-- Claim C8 witness: with the wing candidate wingEx expiring on day 4
while the ATM leg atmEx expires on day 3, the construction falls back to
the naked ATM position. -/
theorem c8_spread_witness :
    buildOptionEntry opEx true [atmEx, wingEx] true atmEx 2 = OptEntry.naked atmEx 2 := by
  have hfind : find_otm_target opEx true atmEx.strike [atmEx, wingEx] = some 105 := by
    norm_num [find_otm_target, liquidity_ok, oi_fails, tickEff, listMin, opEx, atmEx, wingEx]
  have hwing : find_wing opEx true 105 [atmEx, wingEx] = some wingEx := by
    norm_num [find_wing, liquidity_ok, oi_fails, tickEff, List.find?, opEx, atmEx, wingEx]
  exact (c8_spread_expiry_match_or_naked opEx [atmEx, wingEx] true atmEx 2).2.2
    105 wingEx hfind hwing (by norm_num [wingEx, atmEx])

/-- Claim C9: when the time-stop fires, an invested position whose entry
time falls on the current session date and which has not reached breakeven
is flattened (equity holdings zeroed; both option legs closed and
cleared), while any position already at breakeeven is left completely
untouched by this event, in both execution modes. -/
theorem c9_time_stop_flattens_unprotected (now t : Nat) (p : Position) (q : OptPosition) :
    (p.qty ≠ 0 → p.entryTime = some t → dateOf t = dateOf now →
      p.movedToBreakeven = false → (time_stop_exit_eq now p).qty = 0) ∧
    (p.movedToBreakeven = true → time_stop_exit_eq now p = p) ∧
    (opt_has_pos q = true → q.entryTime = some t → dateOf t = dateOf now →
      q.movedToBreakeven = false →
      (time_stop_exit_opt now q).longQty = 0 ∧ (time_stop_exit_opt now q).shortQty = 0 ∧
      (time_stop_exit_opt now q).longLeg = none ∧ (time_stop_exit_opt now q).shortLeg = none) ∧
    (q.movedToBreakeven = true → time_stop_exit_opt now q = q) := by
  refine ⟨?_, ?_, ?_, ?_⟩
  · intro h1 h2 h3 h4
    have hsel : time_stop_selects now p = true := by
      simp [time_stop_selects, h1, h2, h3, h4]
    simp [time_stop_exit_eq, hsel]
  · intro h
    have hsel : time_stop_selects now p = false := by
      simp [time_stop_selects, h]
    simp [time_stop_exit_eq, hsel]
  · intro h1 h2 h3 h4
    have hsel : opt_time_stop_selects now q = true := by
      simp [opt_time_stop_selects, h1, h2, h3, h4]
    simp [time_stop_exit_opt, close_option_position, hsel]
  · intro h
    have hsel : opt_time_stop_selects now q = false := by
      simp [opt_time_stop_selects, h]
    simp [time_stop_exit_opt, hsel]

/-- Claim C9 witness: the time-stop theorem applied to the same-day,
not-at-breakeven positions c9pos (equity) and c9opt (two option legs) at
minute 645 (10:45) of day 0. -/
theorem c9_time_stop_witness :
    (time_stop_exit_eq 645 c9pos).qty = 0 ∧
    (time_stop_exit_opt 645 c9opt).longQty = 0 ∧
    (time_stop_exit_opt 645 c9opt).shortQty = 0 := by
  have h := c9_time_stop_flattens_unprotected 645 600 c9pos c9opt
  refine ⟨h.1 (by norm_num [c9pos]) rfl rfl rfl, ?_, ?_⟩
  · exact (h.2.2.1 (by decide) rfl rfl rfl).1
  · exact (h.2.2.1 (by decide) rfl rfl rfl).2.1

/-- Claim C10: the risk-quantity divisor max(abs(entry - stop), 1e-6) is
bounded below by 1e-6, hence strictly positive and nonzero for every pair
of levels — even with entry = stop the sizing divides by 1e-6 (multiplying
the risk by 1e6) instead of dividing by zero. -/
theorem c10_risk_denominator_clamped (entry stop : ℚ) :
    (1 : ℚ) / 1000000 ≤ risk_qty_denom entry stop ∧
    0 < risk_qty_denom entry stop ∧ risk_qty_denom entry stop ≠ 0 ∧
    ∀ r : ℚ, r / risk_qty_denom entry entry = r * 1000000 := by
  have h1 : (1 : ℚ) / 1000000 ≤ risk_qty_denom entry stop := le_max_right _ _
  have h2 : 0 < risk_qty_denom entry stop := lt_of_lt_of_le (by norm_num) h1
  refine ⟨h1, h2, ne_of_gt h2, ?_⟩
  intro r
  have hd : risk_qty_denom entry entry = 1 / 1000000 := by
    norm_num [risk_qty_denom]
  rw [hd, div_eq_mul_inv]
  norm_num

end ORB
